import Mathlib

/-!
Verification development for the serverless-offline SQS emulator plugin
(src/index.js).  The JavaScript source is shallowly embedded: each relevant
function is translated into an executable Lean definition, and the spec's
claims are settled as theorems about those definitions.

Modelling conventions:
* JavaScript `undefined` is modelled with `Option` (`none` = undefined).
* A thrown exception / rejected promise is modelled with `Except`.
* JavaScript objects that the source only reads through a fixed set of keys
  are modelled as structures or association lists (`List (String × _)`)
  whose order is the object's key-insertion order.
* Numeric attribute values are modelled as `Int` (the source only calls
  `.toString()` on them, which agrees with `Int` printing on integers).
-/

/-! ### Queue-name resolution (src/index.js lines 22-25 and 54-75) -/

/-- Split a character list at every occurrence of a separator, keeping
empty groups, as `String.prototype.split` does with a one-character
separator (structurally recursive so that concrete inputs evaluate). -/
def splitChars (sep : Char) : List Char → List (List Char)
  | [] => [[]]
  | c :: cs =>
    if c = sep then [] :: splitChars sep cs
    else
      match splitChars sep cs with
      | [] => [[c]]
      | g :: gs => (c :: g) :: gs

/-- Embedding of JavaScript `s.split(sep)` for a one-character
separator: `'a:b'.split(':')` is `['a','b']` and `''.split(':')` is
`['']`. -/
def jsSplit (s : String) (sep : Char) : List String :=
  (splitChars sep s.data).map fun cs => String.mk cs

/-- Embedding of `extractQueueNameFromARN` (lines 22-25):
`const [, , , , , QueueName] = arn.split(':')` takes the sixth
colon-delimited field; when fewer than six fields exist the destructured
variable is `undefined`, modelled as `none`. -/
def extractQueueNameFromARN (arn : String) : Option String :=
  (jsSplit arn ':').get? 5

/-- The value found in a trigger declaration's `arn` slot, as the source
distinguishes it: `undef` covers an absent, `undefined` or `null` field
(reading `['Fn::GetAtt']` off it throws a TypeError); `str` a string arn;
`getAtt` an object carrying an `Fn::GetAtt` array; `objNoGetAtt` any other
value on which the `['Fn::GetAtt']` access yields `undefined` without
throwing (an object lacking that key, or a non-null primitive). -/
inductive ArnOpt where
  | undef
  | str (s : String)
  | getAtt (args : List String)
  | objNoGetAtt
deriving DecidableEq, Repr

/-- A trigger declaration as `getQueueName` receives it: either a plain
string, or an object with an `arn` slot and an optional `queueName` slot
(`some q` exactly when the field is present with a string value; any
non-string value behaves like an absent field at line 57). -/
inductive QueueEvent where
  | str (s : String)
  | obj (arn : ArnOpt) (queueName : Option String)
deriving DecidableEq, Repr

/-- Failure modes of `getQueueName`: a runtime `TypeError` raised by the
property access on line 59 when `arn` is `undefined`/`null`, or the
explicit `throw new Error('QueueName not found')` on lines 72-74. -/
inductive ResolveErr where
  | typeError
  | thrown (msg : String)
deriving DecidableEq, Repr

/-- Embedding of `getQueueName` (lines 54-75).  The resource catalog
`resources` maps each resource name to `some q` when
`Resources[name].Properties.QueueName` is the string `q`, and to `none`
when the resource exists but has no string `QueueName` property; a missing
`service`/`resources`/`Resources` chain is the empty catalog.  Check order
follows the source exactly: plain string (line 55), string `arn` field
(line 56), string `queueName` field (line 57), then the `Fn::GetAtt`
branch (lines 59-70), else throw (lines 72-74).  A successful result is
`some` name, or `none` when the source would return `undefined` (a string
with fewer than six colon fields). -/
def getQueueName (queueEvent : QueueEvent)
    (resources : List (String × Option String)) :
    Except ResolveErr (Option String) :=
  match queueEvent with
  | .str s => .ok (extractQueueNameFromARN s)
  | .obj arn queueName =>
    match arn, queueName with
    | .str a, _ => .ok (extractQueueNameFromARN a)
    | _, some q => .ok (some q)
    | .undef, none => .error .typeError
    | .getAtt args, none =>
      match args.head? with
      | none => .error (.thrown "QueueName not found")
      | some resourceName =>
        match List.lookup resourceName resources with
        | some (some qn) => .ok (some qn)
        | _ => .error (.thrown "QueueName not found")
    | .objNoGetAtt, none => .error (.thrown "QueueName not found")

/-! ### Queue provisioning (src/index.js lines 127-164 and 216-236) -/

/-- A leaf of a nested attribute mapping, as the inner `forEach` of
`createInitialQueue` (lines 144-152) distinguishes it: a string, a number,
or (the final `else`) a cross-resource reference object read through
`['Fn::GetAtt'][0]`. -/
inductive LeafVal where
  | str (s : String)
  | num (n : Int)
  | getAtt (args : List String)
deriving DecidableEq, Repr

/-- A top-level attribute value of a queue resource definition, as the
outer `forEach` of `createInitialQueue` (lines 135-157) distinguishes it:
a string, a number, or (the final `else`) a nested mapping. -/
inductive AttrVal where
  | str (s : String)
  | num (n : Int)
  | nested (m : List (String × LeafVal))
deriving DecidableEq, Repr

/-- JSON string-escaping as `JSON.stringify` performs it on the strings
that reach it here (backslash and double quote; no control characters
occur in the modelled values). -/
def jsonEscapeChar (c : Char) : String :=
  if c = '\\' then "\\\\" else if c = '"' then "\\\"" else String.singleton c

/-- Escape every character of a string for JSON embedding. -/
def jsonEscapeString (s : String) : String :=
  String.join (s.data.map jsonEscapeChar)

/-- Embedding of `JSON.stringify` (line 154) on the resolved nested
mapping: all present values are strings, keys keep insertion order, and an
entry whose value is `undefined` (`none`) is omitted, as `JSON.stringify`
omits `undefined`-valued properties. -/
def jsonStringify (m : List (String × Option String)) : String :=
  "\x7b" ++
    String.intercalate ","
      (m.filterMap fun p =>
        p.2.map fun v =>
          "\"" ++ jsonEscapeString p.1 ++ "\":\"" ++ jsonEscapeString v ++ "\"") ++
  "\x7d"

/-- Resolution of one nested-mapping leaf (lines 145-151): strings and
numbers are stringified with `.toString()`; a reference leaf becomes
element 0 of its `Fn::GetAtt` array (`none` models the `undefined` a
too-short array would produce). -/
def resolveLeaf : LeafVal → Option String
  | .str s => some s
  | .num n => some (toString n)
  | .getAtt args => args.head?

/-- Stringification of one top-level attribute value (the
`if`/`else if`/`else` chain on lines 137-155): a string stays itself
(`.toString()` on a string), a number is printed, and a nested mapping is
leaf-resolved and then serialized to a single JSON string. -/
def stringifyAttr : AttrVal → String
  | .str s => s
  | .num n => toString n
  | .nested m => jsonStringify (m.map fun p => (p.1, resolveLeaf p.2))

/-- Embedding of the `params.Attributes` construction of
`createInitialQueue` (lines 130-157): iterate the definition's keys in
order, skip the identity key `QueueName` (line 136), and stringify every
other attribute value. -/
def buildAttributes (queue : List (String × AttrVal)) : List (String × String) :=
  queue.filterMap fun p =>
    if p.1 = "QueueName" then none else some (p.1, stringifyAttr p.2)

/-- How the backend `createQueue` call can behave from the caller's point
of view: throw synchronously while issuing the call, or return a promise
that later resolves with a queue URL or rejects with an error. -/
inductive CallBehavior where
  | syncThrow (e : String)
  | asyncResolve (url : String)
  | asyncReject (e : String)
deriving DecidableEq, Repr

/-- The settlement of a promise: resolved with an optional value
(`none` models resolving with `undefined`), or rejected with an error. -/
inductive PromiseOutcome where
  | resolved (value : Option String)
  | rejected (e : String)
deriving DecidableEq, Repr

/-- Embedding of the error handling of `createInitialQueue`
(lines 159-163): `try { return client.createQueue(params).promise() }
catch (error) { console.log(error) }`.  The `try`/`catch` guards only the
synchronous portion of the call: a synchronous throw is caught and logged
and the async function then resolves with `undefined`; a promise returned
before it settles escapes the `try`, so a later rejection propagates to
the caller with nothing caught and nothing logged.  The result pairs the
settlement of `createInitialQueue`'s own promise with whether the `catch`
block logged. -/
def createInitialQueueSettled : CallBehavior → PromiseOutcome × Bool
  | .syncThrow _ => (.resolved none, true)
  | .asyncResolve url => (.resolved (some url), false)
  | .asyncReject e => (.rejected e, false)

/-- Embedding of `Promise.all` as awaited on line 233: resolves with all
values when every promise resolves, rejects with a rejection otherwise
(list order stands in for settlement order). -/
def promiseAll : List PromiseOutcome → Except String (List (Option String))
  | [] => .ok []
  | .resolved v :: rest => (promiseAll rest).map fun t => v :: t
  | .rejected e :: _ => .error e

/-- Embedding of the provisioning phase of `offlineStartInit`
(lines 224-233): push one `createInitialQueue` promise per queue resource,
then `await Promise.all(promises)`. -/
def offlineStartInitProvision (queues : List CallBehavior) :
    Except String (List (Option String)) :=
  promiseAll (queues.map fun b => (createInitialQueueSettled b).1)

/-- Whether any `catch` block of the provisioning phase logged an error. -/
def loggedDuringProvision (queues : List CallBehavior) : Bool :=
  queues.any fun b => (createInitialQueueSettled b).2

/-! ### Invocation event construction (src/index.js lines 97-118) -/

/-- A raw queue message as `receiveMessage` delivers it (the six fields
the source destructures on lines 99-105); `attributes` and
`messageAttributes` are opaque payloads modelled as association lists. -/
structure Message where
  messageId : String
  receiptHandle : String
  body : String
  attributes : List (String × String)
  messageAttributes : List (String × String)
  md5OfBody : String
deriving DecidableEq, Repr

/-- One record of the invocation event (lines 106-116). -/
structure SqsRecord where
  messageId : String
  receiptHandle : String
  body : String
  attributes : List (String × String)
  messageAttributes : List (String × String)
  md5OfBody : String
  eventSource : String
  eventSourceARN : ArnOpt
  awsRegion : String
deriving DecidableEq, Repr

/-- The value of `queueEvent.arn` as read on line 114: reading `.arn` off
a plain-string trigger yields `undefined` (`ArnOpt.undef`); on an object
trigger it is the `arn` slot itself. -/
def triggerArn : QueueEvent → ArnOpt
  | .str _ => .undef
  | .obj arn _ => arn

/-- Embedding of the `event.Records` construction of `eventHandler`
(lines 97-118): a pure `messages.map` producing, per message, its six
destructured fields plus the constants `eventSource: 'aws:sqs'`,
`eventSourceARN: queueEvent.arn` and `awsRegion: 'us-west-2'`. -/
def buildEvent (queueEvent : QueueEvent) (messages : List Message) :
    List SqsRecord :=
  messages.map fun m =>
    { messageId := m.messageId
      receiptHandle := m.receiptHandle
      body := m.body
      attributes := m.attributes
      messageAttributes := m.messageAttributes
      md5OfBody := m.md5OfBody
      eventSource := "aws:sqs"
      eventSourceARN := triggerArn queueEvent
      awsRegion := "us-west-2" }

/-- Truthiness of the guard `if (!messages) return cb()` on line 78 of
`eventHandler`: the handler proceeds to invocation exactly when `messages`
is not `undefined`/`null` — an empty array is truthy in JavaScript, so
`some []` proceeds. -/
def eventHandlerInvokes : Option (List Message) → Bool
  | none => false
  | some _ => true

/-- Embedding of `this.options.region || this.service.provider.region ||
'us-west-2'` (line 47), the region handed to the backend client: `none`
models an absent option and the empty string is falsy, as for the
JavaScript `||` operator. -/
def jsOrString (v : Option String) (fallback : String) : String :=
  match v with
  | some s => if s = "" then fallback else s
  | none => fallback

/-- The region configured on the backend client by `getClient`
(lines 44-52). -/
def clientRegion (optionsRegion providerRegion : Option String) : String :=
  jsOrString optionsRegion (jsOrString providerRegion "us-west-2")

/-! ### The polling loop (src/index.js lines 181-213)

The recursive `next` of `createQueueReadable` is embedded as a step
function over an abstract environment that fixes, per iteration, the
outcome of the three external effects.  One iteration yields the list of
actions it issued, in issue order, together with whether the `next`
promise went on to recurse (`loops`) or rejected, which nothing catches,
so the loop died (`aborts`). -/

/-- What the backend's `receiveMessage` callback delivers for one call:
an error, or a response whose `Messages` field is absent (`none`) or an
array (possibly empty). -/
inductive ReceiveOutcome where
  | err
  | ok (messages : Option (List Message))
deriving DecidableEq, Repr

/-- What the invocation completion signal reports: `lambdaContext`'s
callback fires `cb(err, data)` (lines 90-95), with `err` set on handler
failure. -/
inductive InvokeOutcome where
  | err
  | ok
deriving DecidableEq, Repr

/-- What the backend's `deleteMessageBatch` callback delivers. -/
inductive DeleteOutcome where
  | err
  | ok
deriving DecidableEq, Repr

/-- The environment of one poll iteration: the outcomes the three
external calls would report. -/
structure IterEnv where
  receive : ReceiveOutcome
  invoke : InvokeOutcome
  delete : DeleteOutcome
deriving DecidableEq, Repr

/-- An action the loop issues, in issue order: the `receiveMessage` call
(line 183, with `MaxNumberOfMessages: queueEvent.batchSize` and
`WaitTimeSeconds: 1`), the `eventHandler` invocation with the received
batch (line 194), the firing of the completion signal with its success
flag (lines 90-95), and the `deleteMessageBatch` call with its
`{Id, ReceiptHandle}` entries (lines 196-207). -/
inductive PollAction where
  | receiveCall
  | invokeHandler (messages : List Message)
  | completionSignal (success : Bool)
  | deleteCall (entries : List (String × String))
deriving DecidableEq, Repr

/-- Whether an action is a batch-delete call. -/
def PollAction.isDeleteCall : PollAction → Bool
  | .deleteCall _ => true
  | _ => false

/-- Whether the iteration recursed into another `next()` (line 210) or
its promise rejected with nothing catching the rejection. -/
inductive IterResult where
  | loops
  | aborts
deriving DecidableEq, Repr

/-- Boolean form of `IterResult`. -/
def IterResult.isLoops : IterResult → Bool
  | .loops => true
  | .aborts => false

/-- `fromCallback` (lines 8-14) around `receiveMessage`: the promise
rejects when the callback reports an error, else resolves with the
(optional) `Messages` field. -/
def receiveCallbackResult : ReceiveOutcome → Except Unit (Option (List Message))
  | .err => .error ()
  | .ok ms => .ok ms

/-- `fromCallback` around `eventHandler` (line 194): the completion
callback `cb(err, data)` makes the promise reject exactly when the
invocation reported an error. -/
def invokeCallbackResult : InvokeOutcome → Except Unit Unit
  | .err => .error ()
  | .ok => .ok ()

/-- `fromCallback` around `deleteMessageBatch` (lines 196-207): the
completion callback passed to the backend is `() => cb()`, which discards
the backend's error argument entirely, so this promise always resolves
whatever the delete outcome. -/
def deleteCallbackResult : DeleteOutcome → Except Unit Unit
  | _ => .ok ()

/-- One iteration of `next` (lines 181-211).  The receive call is issued;
if its promise rejects, the iteration aborts.  If `Messages` is absent
the `if (Messages)` guard (line 193) is falsy and the iteration loops
straight back.  Otherwise — for any array, empty included, since arrays
are truthy — `eventHandler` is invoked, the completion signal fires, and
if the invocation reported an error the awaited promise rejects before the
delete (line 194): no delete is issued and the loop dies.  On success the
batch-delete is issued with one `{Id, ReceiptHandle}` entry per received
message and, its wrapped callback never rejecting, the iteration loops. -/
def iteration (env : IterEnv) : List PollAction × IterResult :=
  match receiveCallbackResult env.receive with
  | .error _ => ([PollAction.receiveCall], .aborts)
  | .ok none => ([PollAction.receiveCall], .loops)
  | .ok (some ms) =>
    match invokeCallbackResult env.invoke with
    | .error _ =>
      ([PollAction.receiveCall, .invokeHandler ms, .completionSignal false], .aborts)
    | .ok _ =>
      match deleteCallbackResult env.delete with
      | .ok _ =>
        ([PollAction.receiveCall, .invokeHandler ms, .completionSignal true,
          .deleteCall (ms.map fun m => (m.messageId, m.receiptHandle))], .loops)
      | .error _ =>
        ([PollAction.receiveCall, .invokeHandler ms, .completionSignal true,
          .deleteCall (ms.map fun m => (m.messageId, m.receiptHandle))], .aborts)

/-- Whether iteration `n` of the loop is reached, for a given stream of
per-iteration environments: iteration 0 always starts (line 213's initial
`next()`), and iteration `n + 1` starts exactly when iteration `n` started
and recursed. -/
def alive (envs : Nat → IterEnv) : Nat → Bool
  | 0 => true
  | n + 1 => alive envs n && IterResult.isLoops (iteration (envs n)).2

/-- A concrete message used by the closed counterexamples and witnesses. -/
def exMessage : Message :=
  { messageId := "m-1"
    receiptHandle := "rh-1"
    body := "hello"
    attributes := []
    messageAttributes := []
    md5OfBody := "5d41402abc4b2a76b9719d911017c592" }

/-- An iteration environment in which the batch is non-empty and the
invocation reports an error. -/
def exEnvAbort : IterEnv :=
  { receive := .ok (some [exMessage]), invoke := .err, delete := .ok }

/-- An iteration environment in which the backend returns an empty
`Messages` array. -/
def exEnvEmptyBatch : IterEnv :=
  { receive := .ok (some []), invoke := .ok, delete := .ok }

/-! ### Claims about the queue-name resolver -/

/-- Claim C5, counterexample: an object trigger carrying both a string
`arn` and a string `queueName` resolves to the arn-derived name, not the
literal `queueName` — the literal is NOT the highest-priority check among
the object shapes (line 56 runs before line 57). -/
theorem C5_counterexample :
    getQueueName
        (QueueEvent.obj (ArnOpt.str "arn:aws:sqs:us-east-1:123456789012:ArnQueue")
          (some "LiteralQueue")) [] =
      Except.ok (some "ArnQueue") ∧
    ("ArnQueue" : String) ≠ "LiteralQueue" := by
  exact ⟨rfl, by decide⟩

/-- Claim C5, amended: for an object trigger whose `queueName` field is a
string, `getQueueName` returns that `queueName` verbatim exactly when the
trigger carries no string `arn` field; a string `arn` is checked first and
wins over the literal. -/
theorem C5_theorem (arn : ArnOpt) (qn : String)
    (cat : List (String × Option String)) (h : ∀ s, arn ≠ ArnOpt.str s) :
    getQueueName (QueueEvent.obj arn (some qn)) cat = Except.ok (some qn) := by
  cases arn with
  | undef => rfl
  | str s => exact absurd rfl (h s)
  | getAtt args => rfl
  | objNoGetAtt => rfl

/-- Claim C5, witness for the amended theorem at a concrete input. -/
theorem C5_witness :
    getQueueName (QueueEvent.obj ArnOpt.undef (some "my-queue")) [] =
      Except.ok (some "my-queue") :=
  C5_theorem ArnOpt.undef "my-queue" [] (fun _ h => ArnOpt.noConfusion h)

/-- Claim C6: a plain-string trigger and an object trigger with a string
`arn` both resolve to the sixth colon-delimited field of the string; an
object trigger of the indirect-reference shape (an `Fn::GetAtt` arn and no
string `queueName`) resolves to the referenced catalog resource's string
`QueueName` property. -/
theorem C6_theorem :
    (∀ (s q : String) (cat : List (String × Option String)),
        (jsSplit s ':').get? 5 = some q →
          getQueueName (QueueEvent.str s) cat = Except.ok (some q)) ∧
    (∀ (a q : String) (qn : Option String) (cat : List (String × Option String)),
        (jsSplit a ':').get? 5 = some q →
          getQueueName (QueueEvent.obj (ArnOpt.str a) qn) cat = Except.ok (some q)) ∧
    (∀ (args : List String) (r qn : String) (cat : List (String × Option String)),
        args.head? = some r → List.lookup r cat = some (some qn) →
          getQueueName (QueueEvent.obj (ArnOpt.getAtt args) none) cat =
            Except.ok (some qn)) := by
  refine ⟨fun s q cat h => ?_, fun a q qn cat h => ?_, fun args r qn cat h1 h2 => ?_⟩
  · simp only [getQueueName, extractQueueNameFromARN, h]
  · simp only [getQueueName, extractQueueNameFromARN, h]
  · simp only [getQueueName, h1, h2]

/-- Claim C6, witness: the three amended cases at concrete inputs. -/
theorem C6_witness :
    getQueueName (QueueEvent.str "arn:aws:sqs:us-east-1:000000000000:plainQ") [] =
      Except.ok (some "plainQ") ∧
    getQueueName
        (QueueEvent.obj (ArnOpt.str "arn:aws:sqs:us-east-1:000000000000:arnQ") none) [] =
      Except.ok (some "arnQ") ∧
    getQueueName (QueueEvent.obj (ArnOpt.getAtt ["MyQueue", "Arn"]) none)
        [("MyQueue", some "catalogQ")] =
      Except.ok (some "catalogQ") :=
  ⟨C6_theorem.1 "arn:aws:sqs:us-east-1:000000000000:plainQ" "plainQ" [] (by decide),
   C6_theorem.2.1 "arn:aws:sqs:us-east-1:000000000000:arnQ" "arnQ" none [] (by decide),
   C6_theorem.2.2 ["MyQueue", "Arn"] "MyQueue" "catalogQ"
     [("MyQueue", some "catalogQ")] (by decide) (by decide)⟩

/-- Claim C7, counterexample: a trigger object with no `arn` field at all
(and no string `queueName`) makes the resolver fail with a TypeError from
the `['Fn::GetAtt']` property access on `undefined` (line 59), not with
the queue-name-not-found error. -/
theorem C7_counterexample :
    getQueueName (QueueEvent.obj ArnOpt.undef none) [] =
      Except.error ResolveErr.typeError ∧
    ResolveErr.typeError ≠ ResolveErr.thrown "QueueName not found" := by
  exact ⟨rfl, by decide⟩

/-- Claim C7, amended: for an unmatched trigger whose `arn` slot is
present and not `undefined`/`null`, the resolver throws the generic error
with the constant message `QueueName not found`, which does not identify
the trigger; when the `arn` slot is absent, `undefined` or `null`, it
instead fails with a TypeError raised by the property access of
line 59. -/
theorem C7_theorem :
    (∀ cat, getQueueName (QueueEvent.obj ArnOpt.undef none) cat =
        Except.error ResolveErr.typeError) ∧
    (∀ cat, getQueueName (QueueEvent.obj ArnOpt.objNoGetAtt none) cat =
        Except.error (ResolveErr.thrown "QueueName not found")) ∧
    (∀ (args : List String) cat, args.head? = none →
        getQueueName (QueueEvent.obj (ArnOpt.getAtt args) none) cat =
          Except.error (ResolveErr.thrown "QueueName not found")) ∧
    (∀ (args : List String) (r : String) cat, args.head? = some r →
        List.lookup r cat = none →
          getQueueName (QueueEvent.obj (ArnOpt.getAtt args) none) cat =
            Except.error (ResolveErr.thrown "QueueName not found")) ∧
    (∀ (args : List String) (r : String) cat, args.head? = some r →
        List.lookup r cat = some none →
          getQueueName (QueueEvent.obj (ArnOpt.getAtt args) none) cat =
            Except.error (ResolveErr.thrown "QueueName not found")) := by
  refine ⟨fun cat => rfl, fun cat => rfl,
          fun args cat h => ?_, fun args r cat h1 h2 => ?_,
          fun args r cat h1 h2 => ?_⟩
  · simp only [getQueueName, h]
  · simp only [getQueueName, h1, h2]
  · simp only [getQueueName, h1, h2]

/-- Claim C7, witness for the amended theorem at concrete inputs. -/
theorem C7_witness :
    getQueueName (QueueEvent.obj ArnOpt.objNoGetAtt none) [] =
      Except.error (ResolveErr.thrown "QueueName not found") ∧
    getQueueName (QueueEvent.obj (ArnOpt.getAtt ["Missing"]) none)
        [("Other", some "q")] =
      Except.error (ResolveErr.thrown "QueueName not found") :=
  ⟨C7_theorem.2.1 [],
   C7_theorem.2.2.2.1 ["Missing"] "Missing" [("Other", some "q")] (by decide) (by decide)⟩

/-! ### Claims about queue provisioning and the invocation event -/

/-- The keys of the built attribute map are exactly the definition's keys
with the identity key `QueueName` removed, in order. -/
theorem buildAttributes_keys (queue : List (String × AttrVal)) :
    (buildAttributes queue).map Prod.fst =
      (queue.map Prod.fst).filter fun k => k != "QueueName" := by
  induction queue with
  | nil => rfl
  | cons p rest ih =>
    by_cases h : p.1 = "QueueName" <;>
      simp_all [buildAttributes, List.filterMap_cons]

/-- Every non-identity entry of the definition lands in the built
attribute map, stringified. -/
theorem mem_buildAttributes_of_mem {queue : List (String × AttrVal)}
    {k : String} {v : AttrVal} (hm : (k, v) ∈ queue) (hk : k ≠ "QueueName") :
    (k, stringifyAttr v) ∈ buildAttributes queue :=
  List.mem_filterMap.mpr ⟨(k, v), hm, by simp [hk]⟩

/-- The worked example of the spec: a definition with a literal
`QueueName`, a numeric `VisibilityTimeout` and a nested `RedrivePolicy`
holding a numeric leaf and a cross-resource reference. -/
def exampleQueueProps : List (String × AttrVal) :=
  [("QueueName", AttrVal.str "Q"),
   ("VisibilityTimeout", AttrVal.num 30),
   ("RedrivePolicy",
     AttrVal.nested
       [("maxReceiveCount", LeafVal.num 5),
        ("deadLetterTargetArn", LeafVal.getAtt ["DLQ", "Arn"])])]

/-- Claim C8: the provisioning attribute map skips the `QueueName` key,
stringifies string and numeric top-level leaves, resolves each nested
cross-resource reference to element 0 of its `Fn::GetAtt` array, and
serializes every nested mapping into one JSON string; on the spec's
example, `VisibilityTimeout` becomes the string `30` and `RedrivePolicy`
one JSON string embedding the resolved reference. -/
theorem C8_theorem :
    (∀ queue : List (String × AttrVal),
        (buildAttributes queue).map Prod.fst =
          (queue.map Prod.fst).filter fun k => k != "QueueName") ∧
    (∀ (queue : List (String × AttrVal)) (k s : String),
        (k, AttrVal.str s) ∈ queue → k ≠ "QueueName" →
          (k, s) ∈ buildAttributes queue) ∧
    (∀ (queue : List (String × AttrVal)) (k : String) (n : Int),
        (k, AttrVal.num n) ∈ queue → k ≠ "QueueName" →
          (k, toString n) ∈ buildAttributes queue) ∧
    (∀ (queue : List (String × AttrVal)) (k : String)
        (m : List (String × LeafVal)),
        (k, AttrVal.nested m) ∈ queue → k ≠ "QueueName" →
          (k, jsonStringify (m.map fun p => (p.1, resolveLeaf p.2))) ∈
            buildAttributes queue) ∧
    (∀ args : List String, resolveLeaf (LeafVal.getAtt args) = args.head?) ∧
    buildAttributes exampleQueueProps =
      [("VisibilityTimeout", "30"),
       ("RedrivePolicy",
        "\x7b\"maxReceiveCount\":\"5\",\"deadLetterTargetArn\":\"DLQ\"\x7d")] := by
  refine ⟨buildAttributes_keys,
          fun queue k s hm hk => mem_buildAttributes_of_mem hm hk,
          fun queue k n hm hk => mem_buildAttributes_of_mem hm hk,
          fun queue k m hm hk => mem_buildAttributes_of_mem hm hk,
          fun args => rfl, ?_⟩
  decide

/-- Claim C8, witness: the membership conjuncts applied to the worked
example. -/
theorem C8_witness :
    ("VisibilityTimeout", toString (30 : Int)) ∈ buildAttributes exampleQueueProps ∧
    ("QueueName", "Q") ∉ buildAttributes exampleQueueProps :=
  ⟨C8_theorem.2.2.1 exampleQueueProps "VisibilityTimeout" 30 (by decide) (by decide),
   by decide⟩

/-- Claim C9: `buildEvent` is a pure element-wise mapping — it produces
one record per message, in input order, each carrying the message's id,
receipt handle, body, attributes, message attributes and checksum,
together with the constant event-source tag `aws:sqs`, the trigger's
`arn` identifier and the region tag. -/
theorem C9_theorem (qe : QueueEvent) (msgs : List Message) :
    (buildEvent qe msgs).length = msgs.length ∧
    ∀ i : Nat,
      ((buildEvent qe msgs).get? i).map SqsRecord.messageId =
          (msgs.get? i).map Message.messageId ∧
      ((buildEvent qe msgs).get? i).map SqsRecord.receiptHandle =
          (msgs.get? i).map Message.receiptHandle ∧
      ((buildEvent qe msgs).get? i).map SqsRecord.body =
          (msgs.get? i).map Message.body ∧
      ((buildEvent qe msgs).get? i).map SqsRecord.attributes =
          (msgs.get? i).map Message.attributes ∧
      ((buildEvent qe msgs).get? i).map SqsRecord.messageAttributes =
          (msgs.get? i).map Message.messageAttributes ∧
      ((buildEvent qe msgs).get? i).map SqsRecord.md5OfBody =
          (msgs.get? i).map Message.md5OfBody ∧
      ((buildEvent qe msgs).get? i).map SqsRecord.eventSource =
          (msgs.get? i).map (fun _ => "aws:sqs") ∧
      ((buildEvent qe msgs).get? i).map SqsRecord.eventSourceARN =
          (msgs.get? i).map (fun _ => triggerArn qe) ∧
      ((buildEvent qe msgs).get? i).map SqsRecord.awsRegion =
          (msgs.get? i).map fun _ => "us-west-2" := by
  refine ⟨List.length_map msgs _, fun i => ?_⟩
  simp only [buildEvent, List.get?_map]
  cases msgs.get? i with
  | none => simp
  | some m => simp

/-- Claim C10: every record's region tag is the hard-coded constant
`us-west-2`, independent of the region handed to the backend client
(`clientRegion`, which is where plugin-option and provider regions flow),
and its `eventSourceARN` is the trigger's `arn` slot — `undefined` for a
plain-string trigger and for a literal-`queueName` trigger. -/
theorem C10_theorem :
    (∀ (qe : QueueEvent) (msgs : List Message) (i : Nat),
        ((buildEvent qe msgs).get? i).map SqsRecord.awsRegion =
          (msgs.get? i).map fun _ => "us-west-2") ∧
    (∀ (arn : ArnOpt) (qn : Option String) (msgs : List Message) (i : Nat),
        ((buildEvent (QueueEvent.obj arn qn) msgs).get? i).map
            SqsRecord.eventSourceARN =
          (msgs.get? i).map fun _ => arn) ∧
    (∀ s : String, triggerArn (QueueEvent.str s) = ArnOpt.undef) ∧
    (∀ q : String,
        triggerArn (QueueEvent.obj ArnOpt.undef (some q)) = ArnOpt.undef) ∧
    (∀ (r : String) (provider : Option String), r ≠ "" →
        clientRegion (some r) provider = r) ∧
    clientRegion none none = "us-west-2" := by
  refine ⟨fun qe msgs i => ?_, fun arn qn msgs i => ?_,
          fun s => rfl, fun q => rfl, fun r provider h => ?_, rfl⟩
  · simp only [buildEvent, List.get?_map]
    cases msgs.get? i with
    | none => simp
    | some m => simp
  · simp only [buildEvent, List.get?_map]
    cases msgs.get? i with
    | none => simp
    | some m => simp [triggerArn]
  · simp [clientRegion, jsOrString, h]

/-- Claim C10, witness: a configured client region reaches the client
while a record built from the same deployment still carries `us-west-2`. -/
theorem C10_witness :
    clientRegion (some "eu-central-1") none = "eu-central-1" ∧
    ((buildEvent (QueueEvent.str "arn:aws:sqs:eu-central-1:1:q") [exMessage]).get? 0).map
        SqsRecord.awsRegion = some "us-west-2" :=
  ⟨C10_theorem.2.2.2.2.1 "eu-central-1" none (by decide),
   C10_theorem.1 (QueueEvent.str "arn:aws:sqs:eu-central-1:1:q") [exMessage] 0⟩

/-! ### Claims about the polling loop and bootstrap -/

/-- Claim C1, counterexample: an iteration that receives a non-empty
batch and whose invocation completion signal reports an error issues NO
batch-delete at all — the `await` of line 194 rejects before the delete
of lines 196-207 — even though the completion signal has fired.  The
claim's `regardless of whether the signal reported success or an error`
is therefore false on the code. -/
theorem C1_counterexample :
    exEnvAbort.receive = ReceiveOutcome.ok (some [exMessage]) ∧
    (iteration exEnvAbort).1.filter PollAction.isDeleteCall = [] ∧
    (iteration exEnvAbort).1.getLast? =
      some (PollAction.completionSignal false) := by
  decide

/-- Claim C1, amended: for an iteration whose receive call returns a
`Messages` array, if the completion signal reports success the poller
issues exactly one batch-delete, placed strictly after the signal in the
action order, containing one `{Id, ReceiptHandle}` entry per received
message; if the signal reports an error, no delete is issued and the
iteration's promise rejects, killing the loop. -/
theorem C1_theorem (env : IterEnv) (ms : List Message)
    (h : env.receive = ReceiveOutcome.ok (some ms)) :
    (env.invoke = InvokeOutcome.ok →
        (iteration env).1 =
          [PollAction.receiveCall, PollAction.invokeHandler ms,
           PollAction.completionSignal true,
           PollAction.deleteCall
             (ms.map fun m => (m.messageId, m.receiptHandle))]) ∧
    (env.invoke = InvokeOutcome.err →
        (iteration env).1.filter PollAction.isDeleteCall = [] ∧
        (iteration env).2 = IterResult.aborts) := by
  obtain ⟨r, i, d⟩ := env
  simp only at h
  subst h
  constructor
  · intro hi
    simp only at hi
    subst hi
    rfl
  · intro hi
    simp only at hi
    subst hi
    exact ⟨rfl, rfl⟩

/-- Claim C1, witness for the amended theorem at a concrete success
environment. -/
theorem C1_witness :
    (iteration
        { receive := ReceiveOutcome.ok (some [exMessage]),
          invoke := InvokeOutcome.ok, delete := DeleteOutcome.ok }).1 =
      [PollAction.receiveCall, PollAction.invokeHandler [exMessage],
       PollAction.completionSignal true,
       PollAction.deleteCall [("m-1", "rh-1")]] :=
  (C1_theorem _ [exMessage] rfl).1 rfl

/-- Claim C2, counterexample: an iteration whose invocation reports an
error makes `next`'s promise reject with nothing catching it — iteration
1 is never reached, so the loop is NOT unconditional and does exit. -/
theorem C2_counterexample :
    (iteration exEnvAbort).2 = IterResult.aborts ∧
    alive (fun _ => exEnvAbort) 1 = false := by
  decide

/-- Claim C2, amended: the loop recurses into another receive exactly
when the receive call succeeded and, if a `Messages` array was present,
the invocation signalled success; the outcome of the delete call never
affects the loop (its error is discarded by the `() => cb()` callback);
and once an iteration aborts, no later iteration ever starts. -/
theorem C2_theorem :
    (∀ env : IterEnv,
        (iteration env).2 = IterResult.loops ↔
          (env.receive = ReceiveOutcome.ok none ∨
            ∃ ms, env.receive = ReceiveOutcome.ok (some ms) ∧
              env.invoke = InvokeOutcome.ok)) ∧
    (∀ env : IterEnv,
        iteration { env with delete := DeleteOutcome.err } =
          iteration { env with delete := DeleteOutcome.ok }) ∧
    (∀ (envs : Nat → IterEnv) (n : Nat),
        alive envs n = false → alive envs (n + 1) = false) := by
  refine ⟨fun env => ?_, fun env => ?_, fun envs n h => ?_⟩
  · obtain ⟨r, i, d⟩ := env
    cases r with
    | err => simp [iteration, receiveCallbackResult]
    | ok oms =>
      cases oms with
      | none => simp [iteration, receiveCallbackResult]
      | some ms =>
        cases i with
        | err => simp [iteration, receiveCallbackResult, invokeCallbackResult]
        | ok =>
          simp [iteration, receiveCallbackResult, invokeCallbackResult,
            deleteCallbackResult]
  · obtain ⟨r, i, d⟩ := env
    cases r with
    | err => rfl
    | ok oms =>
      cases oms with
      | none => rfl
      | some ms => cases i <;> rfl
  · simp [alive, h]

/-- Claim C2, witness: the amended characterization at concrete
environments, and abort permanence after a failed iteration. -/
theorem C2_witness :
    ((iteration exEnvEmptyBatch).2 = IterResult.loops ↔
      (exEnvEmptyBatch.receive = ReceiveOutcome.ok none ∨
        ∃ ms, exEnvEmptyBatch.receive = ReceiveOutcome.ok (some ms) ∧
          exEnvEmptyBatch.invoke = InvokeOutcome.ok)) ∧
    alive (fun _ => exEnvAbort) 2 = false :=
  ⟨C2_theorem.1 exEnvEmptyBatch,
   C2_theorem.2.2 (fun _ => exEnvAbort) 1 (by decide)⟩

/-- Claim C3, counterexample: when the backend returns an EMPTY `Messages`
array, the truthiness check `if (Messages)` on line 193 passes (an empty
array is truthy in JavaScript), so the poller DOES invoke the handler —
with a zero-record event — and DOES issue a batch-delete with an empty
entry list, contradicting the claim for the empty-sequence case. -/
theorem C3_counterexample :
    (iteration exEnvEmptyBatch).1 =
      [PollAction.receiveCall, PollAction.invokeHandler [],
       PollAction.completionSignal true, PollAction.deleteCall []] := by
  decide

/-- Claim C3, amended: when the receive response carries no `Messages`
field the poller neither invokes the handler nor issues a delete and loops
straight back to receiving; but when the response carries an empty
`Messages` array, the handler IS invoked (the line 78 guard only stops
`undefined`/`null`, an empty array being truthy) and, on invocation
success, an empty-entry batch-delete IS issued. -/
theorem C3_theorem :
    (∀ env : IterEnv, env.receive = ReceiveOutcome.ok none →
        (iteration env).1 = [PollAction.receiveCall] ∧
        (iteration env).2 = IterResult.loops) ∧
    eventHandlerInvokes none = false ∧
    (∀ env : IterEnv, env.receive = ReceiveOutcome.ok (some []) →
        PollAction.invokeHandler [] ∈ (iteration env).1 ∧
        eventHandlerInvokes (some []) = true) ∧
    (∀ env : IterEnv, env.receive = ReceiveOutcome.ok (some []) →
        env.invoke = InvokeOutcome.ok →
          PollAction.deleteCall [] ∈ (iteration env).1) := by
  refine ⟨fun env h => ?_, rfl, fun env h => ?_, fun env h hi => ?_⟩
  · obtain ⟨r, i, d⟩ := env
    simp only at h
    subst h
    exact ⟨rfl, rfl⟩
  · obtain ⟨r, i, d⟩ := env
    simp only at h
    subst h
    cases i <;> simp [iteration, receiveCallbackResult, invokeCallbackResult,
      deleteCallbackResult, eventHandlerInvokes]
  · obtain ⟨r, i, d⟩ := env
    simp only at h hi
    subst h
    subst hi
    simp [iteration, receiveCallbackResult, invokeCallbackResult,
      deleteCallbackResult]

/-- Claim C3, witness for the amended theorem at concrete environments. -/
theorem C3_witness :
    (iteration
        { receive := ReceiveOutcome.ok none, invoke := InvokeOutcome.ok,
          delete := DeleteOutcome.ok }).1 = [PollAction.receiveCall] ∧
    PollAction.invokeHandler [] ∈ (iteration exEnvEmptyBatch).1 ∧
    PollAction.deleteCall [] ∈ (iteration exEnvEmptyBatch).1 :=
  ⟨(C3_theorem.1 _ rfl).1, (C3_theorem.2.2.1 exEnvEmptyBatch rfl).1,
   C3_theorem.2.2.2 exEnvEmptyBatch rfl rfl⟩

/-- Claim C4 concerns a slip in the code: `createInitialQueue` wraps
`return client.createQueue(params).promise()` in a `try`/`catch` that can
only catch synchronous throws, so a backend rejection escapes un-logged
and un-swallowed, and `await Promise.all(promises)` in `offlineStartInit`
then rejects instead of settling all provisioning calls.  This theorem
evaluates the embedding at the failing input: one rejecting backend call
among two — the rejection propagates out of provisioning and nothing is
logged, while the intended (sync-throw) path of the same `catch` does log
and swallow. -/
theorem C4_theorem :
    offlineStartInitProvision
        [CallBehavior.asyncReject "backend failure",
         CallBehavior.asyncResolve "http://localhost:9324/queue/q2"] =
      Except.error "backend failure" ∧
    loggedDuringProvision [CallBehavior.asyncReject "backend failure"] = false ∧
    createInitialQueueSettled (CallBehavior.syncThrow "sync") =
      (PromiseOutcome.resolved none, true) :=
  ⟨rfl, rfl, rfl⟩
